import Mathlib

/-!
Shallow embedding of the azign-backend Resource API Service
(`src/server.js`): an Express application over MongoDB exposing
create/read/update operations on workspaces ("spaces"), projects and
tasks, plus comment sub-resources.

Modelling conventions:
* A JSON/JavaScript value is a `JsValue`; an absent object key
  (destructured to `undefined` in JavaScript) is `Option.none`.
* JavaScript truthiness (the `!x` guards in the handlers) is the
  `truthy` predicate: `undefined`, `null`, the empty string, `0` and
  `false` are falsy; every array (including the empty array) is truthy.
* A request body is an association list of key/value pairs; `getField`
  models object destructuring.
* The Mongo collections are lists of documents in a `Store`; `findOne`
  is `List.find?`, `find` is `List.filter`, `save` of a new document
  appends (throwing a duplicate-key error when a unique index is
  violated), and `findOneAndUpdate` / in-place `save` replace the first
  matching document.
* A store failure (connection error etc.) is an oracle argument
  `err : Option String`: `some m` means the store call inside the
  handler's `try` block throws with message `m`, so the `catch` branch
  runs.  Mongoose strips `undefined`-valued keys from a `$set` map, so
  the effective update map holds exactly the body's present keys.
* `Date.now()` timestamps are a `now : Nat` argument.
* Each handler returns the HTTP `Response`, and the resulting `Store`
  when it can write.
-/

namespace Azign

mutual
/-- A JavaScript (JSON) value, as far as the handlers inspect one. -/
inductive JsValue where
  | vStr : String → JsValue
  | vNum : Int → JsValue
  | vBool : Bool → JsValue
  | vNull : JsValue
  | vArr : JsArr → JsValue
deriving DecidableEq, Repr
/-- A JavaScript array of values. -/
inductive JsArr where
  | anil : JsArr
  | acons : JsValue → JsArr → JsArr
deriving DecidableEq, Repr
end

/-- The empty string (the falsy string value). -/
def defEmpty : String := ""

/-- JavaScript truthiness of a possibly-undefined value: `none` models
`undefined`; `null`, `""`, `0` and `false` are falsy; arrays (the empty
array `JsArr.anil` included) and all other values are truthy. -/
def truthy : Option JsValue → Bool
  | none => false
  | some JsValue.vNull => false
  | some (JsValue.vStr s) => !(s == defEmpty)
  | some (JsValue.vNum n) => !(n == 0)
  | some (JsValue.vBool b) => b
  | some (JsValue.vArr _) => true

/-- A request body: a JSON object as an association list. -/
abbrev Body := List (String × JsValue)

/-- Destructuring a key out of a request body: `none` is `undefined`. -/
def getField (b : Body) (k : String) : Option JsValue :=
  (b.find? (fun kv => kv.1 == k)).map (fun kv => kv.2)

/-- The destructured value as stored into a document (the guards ensure
the `vNull` default is never reached on the create paths). -/
def jget (b : Body) (k : String) : JsValue :=
  (getField b k).getD JsValue.vNull

/-! Body keys destructured by the handlers. -/

def kSpCode : String := "SpCode"
def kName : String := "name"
def kProjectCode : String := "projectCode"
def kDescription : String := "description"
def kTeamLead : String := "teamLead"
def kMembers : String := "members"
def kStatus : String := "status"
def kProjectId : String := "projectId"
def kTaskId : String := "taskId"
def kTitle : String := "title"
def kAssignedTo : String := "assignedTo"
def kPriority : String := "priority"
def kAssignedBy : String := "assignedBy"
def kDeadline : String := "deadline"
def kComment : String := "comment"
def kAuthor : String := "author"
def kText : String := "text"

/-! Response messages, verbatim from `server.js`. -/

def msgMissing : String := "Missing required fields"
def msgNoFields : String := "No fields to update"
def msgSpaceNotFound : String := "Space not found"
def msgFetchSpace : String := "Error fetching Space details"
def msgCreateSpace : String := "Error creating Space"
def msgFetchProjects : String := "Failed to fetch projects"
def msgFetchProject : String := "Error fetching project details"
def msgProjectNotFound : String := "Project not found"
def msgCreateProject : String := "Error creating project"
def msgUpdateProject : String := "Error updating project"
def msgFetchTasks : String := "Failed to fetch tasks"
def msgFetchTask : String := "Error fetching task details"
def msgTaskNotFound : String := "Task not found"
def msgCreateTask : String := "Error creating task"
def msgUpdateTask : String := "Error updating task"
def msgCommentRequired : String := "Comment is required"
def msgAuthorText : String := "Author, and text are required"
def msgProjectComment : String := "Error adding comment to project"
def msgTaskComment : String := "Error adding comment to task"

/-- Message of the duplicate-key error MongoDB raises when a `unique`
index (on `SpCode`, `projectCode` or `taskId`) is violated by `save`. -/
def dupKeyMsg : String := "E11000 duplicate key error"

/-! The document model, from the three Mongoose schemas. -/

/-- A document of the `Spaces` collection. -/
structure SpaceDoc where
  SpCode : JsValue
  name : JsValue
deriving DecidableEq, Repr

/-- A project comment subdocument (`comment` plus defaulted `date`). -/
structure ProjectComment where
  comment : JsValue
  date : Nat
deriving DecidableEq, Repr

/-- A document of the `Projects` collection. -/
structure ProjectDoc where
  SpCode : JsValue
  projectCode : JsValue
  name : JsValue
  description : JsValue
  status : JsValue
  teamLead : JsValue
  members : JsValue
  comments : List ProjectComment
deriving DecidableEq, Repr

/-- A task comment subdocument (`author`, `text`, defaulted `timestamp`). -/
structure TaskComment where
  author : JsValue
  text : JsValue
  timestamp : Nat
deriving DecidableEq, Repr

/-- A document of the `Tasks` collection. -/
structure TaskDoc where
  SpCode : JsValue
  projectId : JsValue
  taskId : JsValue
  title : JsValue
  status : JsValue
  assignedTo : JsValue
  priority : JsValue
  assignedBy : JsValue
  description : JsValue
  deadline : JsValue
  comments : List TaskComment
deriving DecidableEq, Repr

/-- The three MongoDB collections. -/
structure Store where
  spaces : List SpaceDoc
  projects : List ProjectDoc
  tasks : List TaskDoc
deriving DecidableEq, Repr

/-- The JSON payload of a response. -/
inductive RespBody where
  | empty : RespBody
  | space : SpaceDoc → RespBody
  | project : ProjectDoc → RespBody
  | projectList : List ProjectDoc → RespBody
  | task : TaskDoc → RespBody
  | taskList : List TaskDoc → RespBody
  | err : String → Option String → RespBody
deriving DecidableEq, Repr

/-- An HTTP response: status code plus JSON body (`RespBody.err` carries
the `error` message and the optional `details` field). -/
structure Response where
  status : Nat
  body : RespBody
deriving DecidableEq, Repr

/-- Replace the first element satisfying `q` (the single document a
`findOneAndUpdate` or an in-place `save` rewrites). -/
def updateFirst (q : α → Bool) (f : α → α) : List α → List α
  | [] => []
  | x :: xs => if q x then f x :: xs else x :: updateFirst q f xs

/-! The route handlers, one Lean function per Express route. -/

/-- `GET /api/space/:SpCode` — fetch a space by its code. -/
def getSpace (err : Option String) (pSpCode : String) (st : Store) : Response :=
  match err with
  | some _ => ⟨500, RespBody.err msgFetchSpace none⟩
  | none =>
    match st.spaces.find? (fun s => s.SpCode == JsValue.vStr pSpCode) with
    | none => ⟨404, RespBody.err msgSpaceNotFound none⟩
    | some s => ⟨200, RespBody.space s⟩

/-- The required-field guard of `POST /api/space/create`. -/
def createSpaceFieldsOk (b : Body) : Bool :=
  truthy (getField b kSpCode) && truthy (getField b kName)

/-- The document built by `new Space({ SpCode, name })`. -/
def newSpaceDoc (b : Body) : SpaceDoc :=
  { SpCode := jget b kSpCode, name := jget b kName }

/-- `POST /api/space/create` — create a space; `save` throws on a
duplicate `SpCode` (unique index), which the `catch` turns into 400. -/
def createSpace (err : Option String) (b : Body) (st : Store) : Response × Store :=
  if !(createSpaceFieldsOk b) then
    (⟨400, RespBody.err msgMissing none⟩, st)
  else
    match err with
    | some m => (⟨400, RespBody.err msgCreateSpace (some m)⟩, st)
    | none =>
      let doc := newSpaceDoc b
      if (st.spaces.find? (fun s => s.SpCode == doc.SpCode)).isSome then
        (⟨400, RespBody.err msgCreateSpace (some dupKeyMsg)⟩, st)
      else
        (⟨201, RespBody.space doc⟩, { st with spaces := st.spaces ++ [doc] })

/-- `GET /api/space/:SpCode/projects` — list the space's projects. -/
def listProjects (err : Option String) (pSpCode : String) (st : Store) : Response :=
  match err with
  | some _ => ⟨500, RespBody.err msgFetchProjects none⟩
  | none => ⟨200, RespBody.projectList (st.projects.filter (fun p => p.SpCode == JsValue.vStr pSpCode))⟩

/-- The `findOne` filter `{ SpCode: req.params.SpCode, projectCode: req.params.projectCode }`. -/
def projMatch (pSp pCode : String) (p : ProjectDoc) : Bool :=
  p.SpCode == JsValue.vStr pSp && p.projectCode == JsValue.vStr pCode

/-- `GET /api/space/:SpCode/projects/:projectCode` — fetch one project. -/
def getProject (err : Option String) (pSp pCode : String) (st : Store) : Response :=
  match err with
  | some _ => ⟨500, RespBody.err msgFetchProject none⟩
  | none =>
    match st.projects.find? (projMatch pSp pCode) with
    | none => ⟨404, RespBody.err msgProjectNotFound none⟩
    | some p => ⟨200, RespBody.project p⟩

/-- The required-field guard of `POST /api/space/:SpCode/projects/create`:
`!SpCode || !projectCode || !name || !description || !teamLead || !members || !status`. -/
def createProjectFieldsOk (b : Body) : Bool :=
  truthy (getField b kSpCode) && truthy (getField b kProjectCode) &&
  truthy (getField b kName) && truthy (getField b kDescription) &&
  truthy (getField b kTeamLead) && truthy (getField b kMembers) &&
  truthy (getField b kStatus)

/-- The document built by `new Project({...})`; all fields come from the
request body, none from the URL path. -/
def newProjectDoc (b : Body) : ProjectDoc :=
  { SpCode := jget b kSpCode, projectCode := jget b kProjectCode,
    name := jget b kName, description := jget b kDescription,
    status := jget b kStatus, teamLead := jget b kTeamLead,
    members := jget b kMembers, comments := [] }

/-- `POST /api/space/:SpCode/projects/create` — create a project.  The
handler destructures `req.body` only; the `:SpCode` URL
segment) is never consulted. -/
def createProject (err : Option String) (_pathSpCode : String) (b : Body) (st : Store) :
    Response × Store :=
  if !(createProjectFieldsOk b) then
    (⟨400, RespBody.err msgMissing none⟩, st)
  else
    match err with
    | some m => (⟨400, RespBody.err msgCreateProject (some m)⟩, st)
    | none =>
      let doc := newProjectDoc b
      if (st.projects.find? (fun p => p.projectCode == doc.projectCode)).isSome then
        (⟨400, RespBody.err msgCreateProject (some dupKeyMsg)⟩, st)
      else
        (⟨201, RespBody.project doc⟩, { st with projects := st.projects ++ [doc] })

/-- The guard of the project update route: 400 when `name`,
`description`, `teamLead`, `members` and `status` are all falsy. -/
def projectUpdateGuardOk (b : Body) : Bool :=
  truthy (getField b kName) || truthy (getField b kDescription) ||
  truthy (getField b kTeamLead) || truthy (getField b kMembers) ||
  truthy (getField b kStatus)

/-- The effective `$set` map of the project update applied to a stored
document: Mongoose drops `undefined` values from the update, so a key
absent from the body leaves the field unchanged, and a key present in
the body (even `null` or falsy) overwrites it. -/
def applyProjectSet (b : Body) (p : ProjectDoc) : ProjectDoc :=
  { p with
    name := (getField b kName).getD p.name
    description := (getField b kDescription).getD p.description
    teamLead := (getField b kTeamLead).getD p.teamLead
    members := (getField b kMembers).getD p.members
    status := (getField b kStatus).getD p.status }

/-- `PUT /api/space/:SpCode/projects/:projectCode/update` — partial
update via `findOneAndUpdate` with `{ new: true }`. -/
def updateProject (err : Option String) (pSp pCode : String) (b : Body) (st : Store) :
    Response × Store :=
  if !(projectUpdateGuardOk b) then
    (⟨400, RespBody.err msgNoFields none⟩, st)
  else
    match err with
    | some m => (⟨400, RespBody.err msgUpdateProject (some m)⟩, st)
    | none =>
      match st.projects.find? (projMatch pSp pCode) with
      | none => (⟨404, RespBody.err msgProjectNotFound none⟩, st)
      | some p =>
        (⟨200, RespBody.project (applyProjectSet b p)⟩,
         { st with projects := updateFirst (projMatch pSp pCode) (applyProjectSet b) st.projects })

/-- `GET /api/space/:SpCode/tasks` — list the space's tasks. -/
def listTasks (err : Option String) (pSpCode : String) (st : Store) : Response :=
  match err with
  | some _ => ⟨500, RespBody.err msgFetchTasks none⟩
  | none => ⟨200, RespBody.taskList (st.tasks.filter (fun t => t.SpCode == JsValue.vStr pSpCode))⟩

/-- The `findOne` filter `{ SpCode: req.params.SpCode, taskId: req.params.taskId }`. -/
def taskMatch (pSp tid : String) (t : TaskDoc) : Bool :=
  t.SpCode == JsValue.vStr pSp && t.taskId == JsValue.vStr tid

/-- `GET /api/space/:SpCode/tasks/:taskId` — fetch one task. -/
def getTask (err : Option String) (pSp tid : String) (st : Store) : Response :=
  match err with
  | some _ => ⟨500, RespBody.err msgFetchTask none⟩
  | none =>
    match st.tasks.find? (taskMatch pSp tid) with
    | none => ⟨404, RespBody.err msgTaskNotFound none⟩
    | some t => ⟨200, RespBody.task t⟩

/-- The required-field guard of `POST /api/space/:SpCode/tasks/create`. -/
def createTaskFieldsOk (b : Body) : Bool :=
  truthy (getField b kSpCode) && truthy (getField b kProjectId) &&
  truthy (getField b kTaskId) && truthy (getField b kTitle) &&
  truthy (getField b kStatus) && truthy (getField b kAssignedTo) &&
  truthy (getField b kPriority) && truthy (getField b kAssignedBy) &&
  truthy (getField b kDescription) && truthy (getField b kDeadline)

/-- The document built by `new Task({...})`; all fields come from the
request body, none from the URL path. -/
def newTaskDoc (b : Body) : TaskDoc :=
  { SpCode := jget b kSpCode, projectId := jget b kProjectId,
    taskId := jget b kTaskId, title := jget b kTitle,
    status := jget b kStatus, assignedTo := jget b kAssignedTo,
    priority := jget b kPriority, assignedBy := jget b kAssignedBy,
    description := jget b kDescription, deadline := jget b kDeadline,
    comments := [] }

/-- `POST /api/space/:SpCode/tasks/create` — create a task.  No lookup
of the referenced project or space is performed.  Unlike every other
write route, the `catch` here responds with status **500**. -/
def createTask (err : Option String) (_pathSpCode : String) (b : Body) (st : Store) :
    Response × Store :=
  if !(createTaskFieldsOk b) then
    (⟨400, RespBody.err msgMissing none⟩, st)
  else
    match err with
    | some m => (⟨500, RespBody.err msgCreateTask (some m)⟩, st)
    | none =>
      let doc := newTaskDoc b
      if (st.tasks.find? (fun t => t.taskId == doc.taskId)).isSome then
        (⟨500, RespBody.err msgCreateTask (some dupKeyMsg)⟩, st)
      else
        (⟨201, RespBody.task doc⟩, { st with tasks := st.tasks ++ [doc] })

/-- The guard of the task update route: 400 when `title`, `status`,
`assignedTo`, `priority`, `assignedBy`, `description` and `deadline`
are all falsy. -/
def taskUpdateGuardOk (b : Body) : Bool :=
  truthy (getField b kTitle) || truthy (getField b kStatus) ||
  truthy (getField b kAssignedTo) || truthy (getField b kPriority) ||
  truthy (getField b kAssignedBy) || truthy (getField b kDescription) ||
  truthy (getField b kDeadline)

/-- The effective `$set` map of the task update applied to a stored
document (same Mongoose semantics as `applyProjectSet`). -/
def applyTaskSet (b : Body) (t : TaskDoc) : TaskDoc :=
  { t with
    title := (getField b kTitle).getD t.title
    status := (getField b kStatus).getD t.status
    assignedTo := (getField b kAssignedTo).getD t.assignedTo
    priority := (getField b kPriority).getD t.priority
    assignedBy := (getField b kAssignedBy).getD t.assignedBy
    description := (getField b kDescription).getD t.description
    deadline := (getField b kDeadline).getD t.deadline }

/-- `PUT /api/space/:SpCode/tasks/:taskId/update` — partial update via
`findOneAndUpdate` with `{ new: true }`. -/
def updateTask (err : Option String) (pSp tid : String) (b : Body) (st : Store) :
    Response × Store :=
  if !(taskUpdateGuardOk b) then
    (⟨400, RespBody.err msgNoFields none⟩, st)
  else
    match err with
    | some m => (⟨400, RespBody.err msgUpdateTask (some m)⟩, st)
    | none =>
      match st.tasks.find? (taskMatch pSp tid) with
      | none => (⟨404, RespBody.err msgTaskNotFound none⟩, st)
      | some t =>
        (⟨200, RespBody.task (applyTaskSet b t)⟩,
         { st with tasks := updateFirst (taskMatch pSp tid) (applyTaskSet b) st.tasks })

/-- The guard of the project comment route: `!comment`. -/
def projectCommentGuardOk (b : Body) : Bool :=
  truthy (getField b kComment)

/-- Append a comment to a project document (`$push` on `comments`). -/
def pushProjectComment (b : Body) (now : Nat) (p : ProjectDoc) : ProjectDoc :=
  { p with comments := p.comments ++ [{ comment := jget b kComment, date := now }] }

/-- `POST /api/space/:SpCode/projects/:projectCode/comments` — atomic
`findOneAndUpdate` with a `$push` of `{ comment, date: Date.now() }`. -/
def addProjectComment (err : Option String) (now : Nat) (pSp pCode : String) (b : Body)
    (st : Store) : Response × Store :=
  if !(projectCommentGuardOk b) then
    (⟨400, RespBody.err msgCommentRequired none⟩, st)
  else
    match err with
    | some m => (⟨400, RespBody.err msgProjectComment (some m)⟩, st)
    | none =>
      match st.projects.find? (projMatch pSp pCode) with
      | none => (⟨404, RespBody.err msgProjectNotFound none⟩, st)
      | some p =>
        (⟨200, RespBody.project (pushProjectComment b now p)⟩,
         { st with projects := updateFirst (projMatch pSp pCode) (pushProjectComment b now) st.projects })

/-- The guard of the task comment route: `!author || !text`. -/
def taskCommentGuardOk (b : Body) : Bool :=
  truthy (getField b kAuthor) && truthy (getField b kText)

/-- Append a comment to a task document (the read-modify-write
`task.comments.push(...); task.save()` sequence). -/
def pushTaskComment (b : Body) (now : Nat) (t : TaskDoc) : TaskDoc :=
  { t with comments := t.comments ++ [{ author := jget b kAuthor, text := jget b kText, timestamp := now }] }

/-- `POST /api/space/:SpCode/tasks/:taskId/comments` — `findOne`, push
the comment in memory, `save`. -/
def addTaskComment (err : Option String) (now : Nat) (pSp tid : String) (b : Body)
    (st : Store) : Response × Store :=
  if !(taskCommentGuardOk b) then
    (⟨400, RespBody.err msgAuthorText none⟩, st)
  else
    match err with
    | some m => (⟨400, RespBody.err msgTaskComment (some m)⟩, st)
    | none =>
      match st.tasks.find? (taskMatch pSp tid) with
      | none => (⟨404, RespBody.err msgTaskNotFound none⟩, st)
      | some t =>
        (⟨200, RespBody.task (pushTaskComment b now t)⟩,
         { st with tasks := updateFirst (taskMatch pSp tid) (pushTaskComment b now) st.tasks })

/-- The union of the updatable field names of the project and task
update routes. -/
def updatableKeys : List String :=
  [kName, kDescription, kTeamLead, kMembers, kStatus,
   kTitle, kAssignedTo, kPriority, kAssignedBy, kDeadline]

/-! Concrete fixtures for witnesses and counterexamples. -/

def sW1 : String := "W1"
def sAcme : String := "Acme"
def sP1 : String := "P1"
def sT1 : String := "T1"
def sDesc : String := "d"
def sLead : String := "lead"
def sOpen : String := "open"
def sHigh : String := "high"
def sBob : String := "bob"
def sAlice : String := "alice"
def sHello : String := "hello"
def sDue : String := "2026-01-01"
def sBoom : String := "boom"
def sOther : String := "OTHER"
def sNew : String := "renamed"

/-- A valid space-creation body. -/
def spaceBody : Body := [(kSpCode, JsValue.vStr sW1), (kName, JsValue.vStr sAcme)]

/-- A project-creation body whose `members` field is the empty array
and whose other required fields are all non-falsy. -/
def projBodyEmptyMembers : Body :=
  [(kSpCode, JsValue.vStr sW1), (kProjectCode, JsValue.vStr sP1),
   (kName, JsValue.vStr sAcme), (kDescription, JsValue.vStr sDesc),
   (kTeamLead, JsValue.vStr sLead), (kMembers, JsValue.vArr JsArr.anil),
   (kStatus, JsValue.vStr sOpen)]

/-- A task-creation body with all ten required fields non-falsy. -/
def taskBody : Body :=
  [(kSpCode, JsValue.vStr sW1), (kProjectId, JsValue.vStr sP1),
   (kTaskId, JsValue.vStr sT1), (kTitle, JsValue.vStr sHello),
   (kStatus, JsValue.vStr sOpen), (kAssignedTo, JsValue.vStr sBob),
   (kPriority, JsValue.vStr sHigh), (kAssignedBy, JsValue.vStr sAlice),
   (kDescription, JsValue.vStr sDesc), (kDeadline, JsValue.vStr sDue)]

/-- An update body carrying only `name`, with the empty string value. -/
def blankNameBody : Body := [(kName, JsValue.vStr defEmpty)]

/-- An update body carrying only a non-empty `name`. -/
def renameBody : Body := [(kName, JsValue.vStr sNew)]

/-- An update body carrying only a non-empty `title`. -/
def retitleBody : Body := [(kTitle, JsValue.vStr sHello)]

/-- A project-comment body. -/
def pCommentBody : Body := [(kComment, JsValue.vStr sHello)]

/-- A task-comment body with `author` and `text`. -/
def tCommentBody : Body := [(kAuthor, JsValue.vStr sAlice), (kText, JsValue.vStr sHello)]

/-- The store with all three collections empty. -/
def emptyStore : Store := ⟨[], [], []⟩

/-- A stored project in workspace `W1` with code `P1`. -/
def proj1 : ProjectDoc :=
  { SpCode := JsValue.vStr sW1, projectCode := JsValue.vStr sP1,
    name := JsValue.vStr sAcme, description := JsValue.vStr sDesc,
    status := JsValue.vStr sOpen, teamLead := JsValue.vStr sLead,
    members := JsValue.vArr JsArr.anil, comments := [] }

/-- A store holding exactly the project `proj1`. -/
def projStore : Store := ⟨[], [proj1], []⟩

/-! Helper lemmas. -/

/-- `updateFirst` preserves any view `f` that the rewriting function `g`
does not change. -/
theorem map_updateFirst {α β : Type} (q : α → Bool) (g : α → α) (f : α → β)
    (hg : ∀ x, f (g x) = f x) : ∀ l : List α, (updateFirst q g l).map f = l.map f := by
  intro l
  induction l with
  | nil => rfl
  | cons x xs ih => cases hx : q x <;> simp [updateFirst, hx, ih, hg]

/-- C1, counterexample: a create-project request whose `members` field
is the empty array (and whose other required fields are non-falsy) is
NOT rejected: the handler answers 201 and the project is persisted,
because the empty array is truthy in JavaScript. -/
theorem C1_cex_empty_members_accepted :
    getField projBodyEmptyMembers kMembers = some (JsValue.vArr JsArr.anil)
  ∧ (createProject none sW1 projBodyEmptyMembers emptyStore).1.status = 201
  ∧ (createProject none sW1 projBodyEmptyMembers emptyStore).1.status ≠ 400
  ∧ (createProject none sW1 projBodyEmptyMembers emptyStore).2.projects
      = [newProjectDoc projBodyEmptyMembers] :=
  ⟨rfl, rfl, by decide, rfl⟩

/-- C1 (amended): if any required body field of create-project
(`SpCode`, `projectCode`, `name`, `description`, `teamLead`, `members`,
`status`) is absent or falsy under JavaScript truthiness — under which
an empty array is truthy, so `members = []` does not count as missing —
the handler returns 400 with error `Missing required fields` and the
store is unchanged. -/
theorem C1_create_project_missing_fields (err : Option String) (pSp : String)
    (b : Body) (st : Store) (h : createProjectFieldsOk b = false) :
    createProject err pSp b st = (⟨400, RespBody.err msgMissing none⟩, st) := by
  simp [createProject, h]

/-- C1 witness: the empty body is rejected with 400 and no persisted
document. -/
theorem C1_witness :
    createProjectFieldsOk [] = false
  ∧ createProject none sW1 [] emptyStore
      = (⟨400, RespBody.err msgMissing none⟩, emptyStore) :=
  ⟨rfl, C1_create_project_missing_fields none sW1 [] emptyStore rfl⟩

/-- C2, counterexample: a project update whose body provides the
non-empty field subset `{name}` with the (falsy) empty-string value is
rejected with 400 `No fields to update` and the store is untouched; the
stored project keeps its old name, contradicting the claim that every
non-empty provided subset is written through. -/
theorem C2_cex_falsy_subset_rejected :
    getField blankNameBody kName = some (JsValue.vStr defEmpty)
  ∧ (updateProject none sW1 sP1 blankNameBody projStore).1
      = ⟨400, RespBody.err msgNoFields none⟩
  ∧ (updateProject none sW1 sP1 blankNameBody projStore).2 = projStore
  ∧ proj1.name ≠ JsValue.vStr defEmpty :=
  ⟨rfl, rfl, rfl, by decide⟩

/-- C2 (amended): for a project update whose body provides a subset of
`{name, description, teamLead, members, status}` with at least one
truthy value, addressed at a stored project, the handler stores and
returns the project with exactly the present fields replaced by the
body's values; each absent (undefined) key is omitted from the
effective update map, so the corresponding field — and every
non-updatable field — is unchanged. -/
theorem C2_partial_update_frame (pSp pCode : String) (b : Body) (st : Store)
    (p : ProjectDoc) (hguard : projectUpdateGuardOk b = true)
    (hfind : st.projects.find? (projMatch pSp pCode) = some p) :
    updateProject none pSp pCode b st =
      (⟨200, RespBody.project (applyProjectSet b p)⟩,
       { st with projects := updateFirst (projMatch pSp pCode) (applyProjectSet b) st.projects })
  ∧ (applyProjectSet b p).name = (getField b kName).getD p.name
  ∧ (applyProjectSet b p).description = (getField b kDescription).getD p.description
  ∧ (applyProjectSet b p).teamLead = (getField b kTeamLead).getD p.teamLead
  ∧ (applyProjectSet b p).members = (getField b kMembers).getD p.members
  ∧ (applyProjectSet b p).status = (getField b kStatus).getD p.status
  ∧ (applyProjectSet b p).SpCode = p.SpCode
  ∧ (applyProjectSet b p).projectCode = p.projectCode
  ∧ (applyProjectSet b p).comments = p.comments := by
  refine ⟨?_, rfl, rfl, rfl, rfl, rfl, rfl, rfl, rfl⟩
  simp [updateProject, hguard, hfind]

/-- C2 witness: renaming `proj1` stores the new name and leaves its
description unchanged. -/
theorem C2_witness :
    updateProject none sW1 sP1 renameBody projStore =
      (⟨200, RespBody.project (applyProjectSet renameBody proj1)⟩,
       { projStore with
           projects := updateFirst (projMatch sW1 sP1) (applyProjectSet renameBody) projStore.projects })
  ∧ (applyProjectSet renameBody proj1).name = JsValue.vStr sNew
  ∧ (applyProjectSet renameBody proj1).description = proj1.description :=
  ⟨(C2_partial_update_frame sW1 sP1 renameBody projStore proj1 rfl rfl).1, rfl, rfl⟩

/-- C4: a project-update or task-update request whose body contains
none of the updatable fields (in particular the empty body) is rejected
with 400 `No fields to update` and the store is unchanged. -/
theorem C4_no_fields_rejected (err : Option String) (pSp pCode tid : String)
    (b : Body) (st : Store) (h : ∀ k ∈ updatableKeys, getField b k = none) :
    updateProject err pSp pCode b st = (⟨400, RespBody.err msgNoFields none⟩, st)
  ∧ updateTask err pSp tid b st = (⟨400, RespBody.err msgNoFields none⟩, st) := by
  have hname := h kName (by decide)
  have hdesc := h kDescription (by decide)
  have hlead := h kTeamLead (by decide)
  have hmem := h kMembers (by decide)
  have hstat := h kStatus (by decide)
  have htitle := h kTitle (by decide)
  have hassto := h kAssignedTo (by decide)
  have hprio := h kPriority (by decide)
  have hassby := h kAssignedBy (by decide)
  have hdead := h kDeadline (by decide)
  constructor
  · simp [updateProject, projectUpdateGuardOk, hname, hdesc, hlead, hmem, hstat, truthy]
  · simp [updateTask, taskUpdateGuardOk, htitle, hstat, hassto, hprio, hassby, hdesc, hdead, truthy]

/-- C4 witness: the empty body `{}` is rejected by both update routes
on the empty store. -/
theorem C4_witness :
    updateProject none sW1 sP1 [] emptyStore
      = (⟨400, RespBody.err msgNoFields none⟩, emptyStore)
  ∧ updateTask none sW1 sT1 [] emptyStore
      = (⟨400, RespBody.err msgNoFields none⟩, emptyStore) :=
  C4_no_fields_rejected none sW1 sP1 sT1 [] emptyStore (fun _ _ => rfl)

/-- C6: on the task-comment route, a body missing a truthy `author` or
`text` is rejected with 400 before any store access; with both present,
a task id not found in the store yields 404 and the store is unchanged
(no task is created). -/
theorem C6_task_comment_not_found (err : Option String) (now : Nat)
    (pSp tid : String) (b : Body) (st : Store) :
    (taskCommentGuardOk b = false →
       addTaskComment err now pSp tid b st = (⟨400, RespBody.err msgAuthorText none⟩, st))
  ∧ (taskCommentGuardOk b = true → err = none →
       st.tasks.find? (taskMatch pSp tid) = none →
       addTaskComment err now pSp tid b st = (⟨404, RespBody.err msgTaskNotFound none⟩, st)) := by
  constructor
  · intro h
    simp [addTaskComment, h]
  · intro h he hf
    subst he
    simp [addTaskComment, h, hf]

/-- C6 witness: commenting a nonexistent task is a 404 that leaves the
empty store empty, and a body without author or text is a 400. -/
theorem C6_witness :
    addTaskComment none 0 sW1 sT1 tCommentBody emptyStore
      = (⟨404, RespBody.err msgTaskNotFound none⟩, emptyStore)
  ∧ addTaskComment none 0 sW1 sT1 [] emptyStore
      = (⟨400, RespBody.err msgAuthorText none⟩, emptyStore) :=
  ⟨(C6_task_comment_not_found none 0 sW1 sT1 tCommentBody emptyStore).2 rfl rfl rfl,
   (C6_task_comment_not_found none 0 sW1 sT1 [] emptyStore).1 rfl⟩

/-- C7: create-task performs no cross-entity validation: with all ten
required fields truthy and a fresh task id, the task is created and 201
returned even when the store holds no project with the referenced
project id and no space with the referenced space code. -/
theorem C7_create_task_no_ref_check (pSp : String) (b : Body) (st : Store)
    (hok : createTaskFieldsOk b = true)
    (hfresh : st.tasks.find? (fun t => t.taskId == (newTaskDoc b).taskId) = none)
    (_hnoproj : st.projects.find? (fun p => p.projectCode == jget b kProjectId) = none)
    (_hnospace : st.spaces.find? (fun s => s.SpCode == jget b kSpCode) = none) :
    createTask none pSp b st =
      (⟨201, RespBody.task (newTaskDoc b)⟩, { st with tasks := st.tasks ++ [newTaskDoc b] }) := by
  simp [createTask, hok, hfresh]

/-- C7 witness: a fully-populated task is created in the empty store,
which contains neither the referenced project nor the space. -/
theorem C7_witness :
    createTask none sW1 taskBody emptyStore
      = (⟨201, RespBody.task (newTaskDoc taskBody)⟩, ⟨[], [], [newTaskDoc taskBody]⟩) :=
  C7_create_task_no_ref_check sW1 taskBody emptyStore rfl rfl rfl rfl

/-- C8: listing projects (or tasks) of a workspace code matched by no
stored project (task) returns 200 with the empty array. -/
theorem C8_empty_listings (pSp : String) (st : Store)
    (hp : ∀ p ∈ st.projects, p.SpCode ≠ JsValue.vStr pSp)
    (ht : ∀ t ∈ st.tasks, t.SpCode ≠ JsValue.vStr pSp) :
    listProjects none pSp st = ⟨200, RespBody.projectList []⟩
  ∧ listTasks none pSp st = ⟨200, RespBody.taskList []⟩ := by
  constructor
  · simp only [listProjects, Response.mk.injEq, RespBody.projectList.injEq, true_and]
    exact List.filter_eq_nil_iff.2 (fun p hmem hbeq => hp p hmem (beq_iff_eq.1 hbeq))
  · simp only [listTasks, Response.mk.injEq, RespBody.taskList.injEq, true_and]
    exact List.filter_eq_nil_iff.2 (fun t hmem hbeq => ht t hmem (beq_iff_eq.1 hbeq))

/-- C8 witness: `projStore` has no document under the code `OTHER`, and
both listings answer 200 with `[]`. -/
theorem C8_witness :
    listProjects none sOther projStore = ⟨200, RespBody.projectList []⟩
  ∧ listTasks none sOther projStore = ⟨200, RespBody.taskList []⟩ :=
  C8_empty_listings sOther projStore (by decide) (by decide)

/-- C3, counterexample: when the store throws on the write endpoint
create-task, the handler responds 500 (not the claimed 400); and on the
read endpoint get-space the 500 response carries no `details` field
(the claim demands the store's message be attached). -/
theorem C3_cex_create_task_500 :
    createTask (some sBoom) sW1 taskBody emptyStore
      = (⟨500, RespBody.err msgCreateTask (some sBoom)⟩, emptyStore)
  ∧ (createTask (some sBoom) sW1 taskBody emptyStore).1.status ≠ 400
  ∧ getSpace (some sBoom) sW1 emptyStore = ⟨500, RespBody.err msgFetchSpace none⟩ :=
  ⟨rfl, by decide, rfl⟩

/-- C3 (amended): when the backing store call throws with message `m`,
every read endpoint responds 500 with a static error message and no
`details`; every write endpoint responds 400 with `m` attached as
`details`, except create-task, which responds 500 with `m` as
`details`.  (The field guards must pass, since they run before the
store call.) -/
theorem C3_store_error_statuses (m : String) (now : Nat) (pSp pCode tid : String)
    (st : Store) (b1 b2 b3 b4 b5 b6 b7 : Body)
    (h1 : createSpaceFieldsOk b1 = true)
    (h2 : createProjectFieldsOk b2 = true)
    (h3 : projectUpdateGuardOk b3 = true)
    (h4 : createTaskFieldsOk b4 = true)
    (h5 : taskUpdateGuardOk b5 = true)
    (h6 : projectCommentGuardOk b6 = true)
    (h7 : taskCommentGuardOk b7 = true) :
    getSpace (some m) pSp st = ⟨500, RespBody.err msgFetchSpace none⟩
  ∧ listProjects (some m) pSp st = ⟨500, RespBody.err msgFetchProjects none⟩
  ∧ getProject (some m) pSp pCode st = ⟨500, RespBody.err msgFetchProject none⟩
  ∧ listTasks (some m) pSp st = ⟨500, RespBody.err msgFetchTasks none⟩
  ∧ getTask (some m) pSp tid st = ⟨500, RespBody.err msgFetchTask none⟩
  ∧ createSpace (some m) b1 st = (⟨400, RespBody.err msgCreateSpace (some m)⟩, st)
  ∧ createProject (some m) pSp b2 st = (⟨400, RespBody.err msgCreateProject (some m)⟩, st)
  ∧ updateProject (some m) pSp pCode b3 st = (⟨400, RespBody.err msgUpdateProject (some m)⟩, st)
  ∧ createTask (some m) pSp b4 st = (⟨500, RespBody.err msgCreateTask (some m)⟩, st)
  ∧ updateTask (some m) pSp tid b5 st = (⟨400, RespBody.err msgUpdateTask (some m)⟩, st)
  ∧ addProjectComment (some m) now pSp pCode b6 st
      = (⟨400, RespBody.err msgProjectComment (some m)⟩, st)
  ∧ addTaskComment (some m) now pSp tid b7 st
      = (⟨400, RespBody.err msgTaskComment (some m)⟩, st) := by
  refine ⟨rfl, rfl, rfl, rfl, rfl, ?_, ?_, ?_, ?_, ?_, ?_, ?_⟩ <;>
    simp [createSpace, createProject, updateProject, createTask, updateTask,
          addProjectComment, addTaskComment, h1, h2, h3, h4, h5, h6, h7]

/-- C3 witness: concrete store failures on create-task (500), update
task (400 with details) and get-task (500, no details). -/
theorem C3_witness :
    (createTask (some sBoom) sW1 taskBody emptyStore).1.status = 500
  ∧ (updateTask (some sBoom) sW1 sT1 retitleBody emptyStore).1
      = ⟨400, RespBody.err msgUpdateTask (some sBoom)⟩
  ∧ getTask (some sBoom) sW1 sT1 emptyStore = ⟨500, RespBody.err msgFetchTask none⟩ := by
  obtain ⟨-, -, -, -, h5, -, -, -, h9, h10, -, -⟩ :=
    C3_store_error_statuses sBoom 0 sW1 sP1 sT1 emptyStore
      spaceBody projBodyEmptyMembers renameBody taskBody retitleBody pCommentBody tCommentBody
      rfl rfl rfl rfl rfl rfl rfl
  exact ⟨by rw [h9], by rw [h10], h5⟩

/-- C5: create-then-get round-trip for workspaces.  With a string code
`s` (non-empty, so truthy) and a truthy name: if no stored space has
code `s`, creation answers 201 with the created document, and getting
`s` from the resulting store answers 200 with the same document; if a
stored space already has code `s`, creation answers 400 and the store
is unchanged. -/
theorem C5_space_roundtrip (b : Body) (s : String) (st : Store)
    (hb : getField b kSpCode = some (JsValue.vStr s))
    (hs : s ≠ defEmpty)
    (hn : truthy (getField b kName) = true) :
    (st.spaces.find? (fun d => d.SpCode == JsValue.vStr s) = none →
       createSpace none b st =
         (⟨201, RespBody.space (newSpaceDoc b)⟩,
          { st with spaces := st.spaces ++ [newSpaceDoc b] })
       ∧ (newSpaceDoc b).SpCode = JsValue.vStr s
       ∧ getSpace none s { st with spaces := st.spaces ++ [newSpaceDoc b] }
           = ⟨200, RespBody.space (newSpaceDoc b)⟩)
  ∧ ((st.spaces.find? (fun d => d.SpCode == JsValue.vStr s)).isSome = true →
       (createSpace none b st).1.status = 400 ∧ (createSpace none b st).2 = st) := by
  have hok : createSpaceFieldsOk b = true := by
    unfold createSpaceFieldsOk
    rw [hn, hb]
    simp [truthy, hs]
  have hcode : (newSpaceDoc b).SpCode = JsValue.vStr s := by
    simp [newSpaceDoc, jget, hb]
  constructor
  · intro hfresh
    refine ⟨?_, hcode, ?_⟩
    · simp [createSpace, hok, hcode, hfresh]
    · simp [getSpace, List.find?_append, hfresh, List.find?, hcode]
  · intro hdup
    have : createSpace none b st = (⟨400, RespBody.err msgCreateSpace (some dupKeyMsg)⟩, st) := by
      simp [createSpace, hok, hcode, hdup]
    simp [this]

/-- C5 witness: creating `W1` in the empty store, fetching it back, and
failing to create `W1` a second time. -/
theorem C5_witness :
    createSpace none spaceBody emptyStore =
      (⟨201, RespBody.space (newSpaceDoc spaceBody)⟩, ⟨[newSpaceDoc spaceBody], [], []⟩)
  ∧ getSpace none sW1 ⟨[newSpaceDoc spaceBody], [], []⟩
      = ⟨200, RespBody.space (newSpaceDoc spaceBody)⟩
  ∧ (createSpace none spaceBody ⟨[newSpaceDoc spaceBody], [], []⟩).1.status = 400
  ∧ (createSpace none spaceBody ⟨[newSpaceDoc spaceBody], [], []⟩).2
      = ⟨[newSpaceDoc spaceBody], [], []⟩ := by
  obtain ⟨hcreate, -, hget⟩ :=
    (C5_space_roundtrip spaceBody sW1 emptyStore rfl (by decide) rfl).1 rfl
  obtain ⟨hdup1, hdup2⟩ :=
    (C5_space_roundtrip spaceBody sW1 ⟨[newSpaceDoc spaceBody], [], []⟩ rfl (by decide) rfl).2 rfl
  exact ⟨hcreate, hget, hdup1, hdup2⟩

/-- C9: project and task updates preserve document identity: the
per-document view of the identity and parent-reference fields
(`SpCode`, `projectCode` for projects; `SpCode`, `projectId`, `taskId`
for tasks) over the whole store is unchanged by the update handlers,
for every request body, path, and store-error outcome. -/
theorem C9_update_preserves_identity (errP errT : Option String)
    (pSpP pSpT pCode tid : String) (bp bt : Body) (stP stT : Store) :
    (updateProject errP pSpP pCode bp stP).2.projects.map (fun p => (p.SpCode, p.projectCode))
      = stP.projects.map (fun p => (p.SpCode, p.projectCode))
  ∧ (updateTask errT pSpT tid bt stT).2.tasks.map (fun t => (t.SpCode, t.projectId, t.taskId))
      = stT.tasks.map (fun t => (t.SpCode, t.projectId, t.taskId)) := by
  constructor
  · cases hg : projectUpdateGuardOk bp with
    | false => simp [updateProject, hg]
    | true =>
      cases errP with
      | some m => simp [updateProject, hg]
      | none =>
        cases hf : stP.projects.find? (projMatch pSpP pCode) with
        | none => simp [updateProject, hg, hf]
        | some p =>
          simp only [updateProject, hg, Bool.not_true, Bool.false_eq_true, if_false, hf]
          exact map_updateFirst (projMatch pSpP pCode) (applyProjectSet bp)
            (fun p => (p.SpCode, p.projectCode)) (fun x => rfl) stP.projects
  · cases hg : taskUpdateGuardOk bt with
    | false => simp [updateTask, hg]
    | true =>
      cases errT with
      | some m => simp [updateTask, hg]
      | none =>
        cases hf : stT.tasks.find? (taskMatch pSpT tid) with
        | none => simp [updateTask, hg, hf]
        | some t =>
          simp only [updateTask, hg, Bool.not_true, Bool.false_eq_true, if_false, hf]
          exact map_updateFirst (taskMatch pSpT tid) (applyTaskSet bt)
            (fun t => (t.SpCode, t.projectId, t.taskId)) (fun x => rfl) stT.tasks

/-- C10: create-project and create-task take every document field from
the request body and never consult the `:SpCode` URL segment: the
handlers are invariant under changing the path parameter, and the
created document carries the body's `SpCode` even when it differs from
the path's. -/
theorem C10_body_code_overrides_path (err : Option String) (p1 p2 : String)
    (bp bt : Body) (st : Store)
    (hokP : createProjectFieldsOk bp = true)
    (hfreshP : st.projects.find? (fun q => q.projectCode == (newProjectDoc bp).projectCode) = none)
    (hneP : (newProjectDoc bp).SpCode ≠ JsValue.vStr p1)
    (hokT : createTaskFieldsOk bt = true)
    (hfreshT : st.tasks.find? (fun t => t.taskId == (newTaskDoc bt).taskId) = none)
    (hneT : (newTaskDoc bt).SpCode ≠ JsValue.vStr p1) :
    createProject err p1 bp st = createProject err p2 bp st
  ∧ (createProject none p1 bp st).2.projects = st.projects ++ [newProjectDoc bp]
  ∧ (newProjectDoc bp).SpCode = jget bp kSpCode
  ∧ (newProjectDoc bp).SpCode ≠ JsValue.vStr p1
  ∧ createTask err p1 bt st = createTask err p2 bt st
  ∧ (createTask none p1 bt st).2.tasks = st.tasks ++ [newTaskDoc bt]
  ∧ (newTaskDoc bt).SpCode = jget bt kSpCode
  ∧ (newTaskDoc bt).SpCode ≠ JsValue.vStr p1 := by
  refine ⟨rfl, ?_, rfl, hneP, rfl, ?_, rfl, hneT⟩
  · simp [createProject, hokP, hfreshP]
  · simp [createTask, hokT, hfreshT]

/-- C10 witness: a create-project and a create-task request sent to the
path segment `OTHER` with body code `W1` store their documents under
`W1`. -/
theorem C10_witness :
    (createProject none sOther projBodyEmptyMembers emptyStore).2.projects
      = [newProjectDoc projBodyEmptyMembers]
  ∧ (newProjectDoc projBodyEmptyMembers).SpCode = JsValue.vStr sW1
  ∧ JsValue.vStr sW1 ≠ JsValue.vStr sOther
  ∧ (createTask none sOther taskBody emptyStore).2.tasks = [newTaskDoc taskBody]
  ∧ (newTaskDoc taskBody).SpCode = JsValue.vStr sW1 := by
  obtain ⟨-, hproj, -, -, -, htask, -, -⟩ :=
    C10_body_code_overrides_path none sOther sW1 projBodyEmptyMembers taskBody emptyStore
      rfl rfl (by decide) rfl rfl (by decide)
  refine ⟨?_, rfl, by decide, ?_, rfl⟩
  · rw [hproj]
    rfl
  · rw [htask]
    rfl

end Azign
